import Mathlib

/-!
# Verification of the funds-projector passwordless authentication core

Shallow embedding of the repository's challenge/response authentication
subsystem: OTP utilities (`src/unnamed/part_001`), the JWT wrapper
(`src/src/utils/jwt.js`), the OTP controller (`sendOtp` / `verifyOtp` in
`src/src/controllers/profile.controller.js`), and the authentication
middleware (`src/unnamed/part_002`).

Timestamps are modelled as natural numbers (milliseconds).  The process
environment is a record of optional strings; JavaScript string truthiness
(`undefined` and `""` are falsy) is modelled by `jsTruthy` / `jsOr`.
-/

namespace FundsProjector

/-- The slice of `process.env` the authentication core reads. -/
structure Env where
  nodeEnv : Option String
  awsLambdaFunctionName : Option String
  jwtSecretVar : Option String
  deriving Repr, DecidableEq

/-- JavaScript truthiness of an optional string: `undefined` and `""` are falsy. -/
def jsTruthy : Option String → Bool
  | none => false
  | some s => !(s == "")

/-- JavaScript `v || d` on an optional string. -/
def jsOr (v : Option String) (d : String) : String :=
  match v with
  | none => d
  | some s => if s == "" then d else s

/-- `const isDevelopment = process.env.NODE_ENV === 'development' || !process.env.AWS_LAMBDA_FUNCTION_NAME`
(profile.controller.js, computed identically in `sendOtp` and `verifyOtp`). -/
def isDevelopment (env : Env) : Bool :=
  (env.nodeEnv == some "development") || !(jsTruthy env.awsLambdaFunctionName)

/-! ## OTP utilities (src/unnamed/part_001) -/

/-- Decimal digit character, as matched by the regex class `\d`. -/
def isDigitChar (c : Char) : Bool :=
  ('0' ≤ c) && (c ≤ '9')

/-- `generateOTP`: `Math.floor(100000 + Math.random() * 900000)`, with the
random draw `r ∈ [0,1)` made an explicit parameter.  The result is the
numeric value rendered as the OTP string. -/
def generateOTP (r : ℚ) : ℕ :=
  (⌊(100000 : ℚ) + r * 900000⌋).toNat

/-- `isValidOTPFormat`: the regex test `/^\d{6}$/`. -/
def isValidOTPFormat (otp : String) : Bool :=
  (otp.length == 6) && otp.data.all isDigitChar

/-- `isOTPExpired`: `new Date() > new Date(expiryTime)` — strictly greater. -/
def isOTPExpired (now expiryTime : ℕ) : Bool :=
  expiryTime < now

/-- OTP validity window: 15 minutes, in milliseconds. -/
def OTP_VALIDITY_MS : ℕ := 15 * 60 * 1000

/-- `getOTPExpiryTime`: now + 15 minutes. -/
def getOTPExpiryTime (now : ℕ) : ℕ := now + OTP_VALIDITY_MS

/-! ## JWT (src/src/utils/jwt.js) -/

/-- Payload minted on successful verification: `{ userId, mobileNumber }`. -/
structure TokenPayload where
  userId : ℕ
  mobileNumber : String
  deriving Repr, DecidableEq

/-- A signed token: the payload together with issue/expiry instants and the
secret it was signed under (signature validity = the verifier holds the same
secret). -/
structure Token where
  payload : TokenPayload
  iat : ℕ
  exp : ℕ
  secret : String
  deriving Repr, DecidableEq

/-- The hardcoded fallback of `const JWT_SECRET = process.env.JWT_SECRET || '...'`. -/
def JWT_SECRET_FALLBACK : String := "your-secret-key-change-in-production"

/-- `JWT_SECRET`: the environment variable, or the hardcoded fallback when it
is unset or empty (JavaScript `||`). -/
def jwtSecret (env : Env) : String :=
  jsOr env.jwtSecretVar JWT_SECRET_FALLBACK

/-- The default token validity window, `JWT_EXPIRES_IN = '7d'`, in milliseconds. -/
def JWT_DEFAULT_WINDOW_MS : ℕ := 7 * 24 * 60 * 60 * 1000

/-- Modelled from the spec: `jwt.sign` of the external `jsonwebtoken` library
(not part of this repository's sources) — signs the payload under the secret
with expiry `now + window`. -/
def jwtSign (secret : String) (windowMs : ℕ) (payload : TokenPayload) (now : ℕ) : Token :=
  { payload := payload, iat := now, exp := now + windowMs, secret := secret }

/-- Failure kinds of `jwt.verify`: `TokenExpiredError` and `JsonWebTokenError`. -/
inductive JwtError where
  | expired
  | invalid
  deriving Repr, DecidableEq

/-- Modelled from the spec: `jwt.verify` of the external `jsonwebtoken`
library — a bad signature is a `JsonWebTokenError`; a valid signature past
its expiry window is a `TokenExpiredError`; otherwise the payload is
returned. -/
def jwtVerify (secret : String) (now : ℕ) (t : Token) : Except JwtError TokenPayload :=
  if t.secret ≠ secret then .error .invalid
  else if t.exp ≤ now then .error .expired
  else .ok t.payload

/-- `generateToken(payload)`: sign under the process-wide `JWT_SECRET`. -/
def generateToken (env : Env) (windowMs : ℕ) (payload : TokenPayload) (now : ℕ) : Token :=
  jwtSign (jwtSecret env) windowMs payload now

/-- `verifyToken(token)`: verify and classify failures as
`'Token has expired'` vs `'Invalid token'`. -/
def verifyToken (env : Env) (now : ℕ) (t : Token) : Except String TokenPayload :=
  match jwtVerify (jwtSecret env) now t with
  | .ok p => .ok p
  | .error .expired => .error "Token has expired"
  | .error .invalid => .error "Invalid token"

/-! ## Database model (tables from src/unnamed/part_000) -/

/-- A row of the `users` table (the columns the auth core reads). -/
structure UserRow where
  id : ℕ
  mobile_number : String
  created_at : ℕ
  deriving Repr, DecidableEq

/-- A row of the `otps` table (`UNIQUE(user_id)`). -/
structure OtpRow where
  user_id : ℕ
  mobile_number : String
  otp : String
  expiry_time : ℕ
  created_at : ℕ
  deriving Repr, DecidableEq

/-- The database state the auth core touches. `nextUserId` models the
`SERIAL` id sequence of `users`. -/
structure DB where
  users : List UserRow
  otps : List OtpRow
  nextUserId : ℕ
  deriving Repr, DecidableEq

/-- `SELECT id, mobile_number, created_at FROM users WHERE mobile_number = $1`. -/
def findUserByMobile (db : DB) (m : String) : Option UserRow :=
  db.users.find? (fun u => u.mobile_number == m)

/-- `SELECT otp, expiry_time, created_at FROM otps WHERE user_id = $1 AND mobile_number = $2`. -/
def findOtp (db : DB) (uid : ℕ) (m : String) : Option OtpRow :=
  db.otps.find? (fun o => (o.user_id == uid) && (o.mobile_number == m))

/-- `INSERT INTO otps ... ON CONFLICT (user_id) DO UPDATE SET otp, expiry_time,
created_at = CURRENT_TIMESTAMP` — on conflict the stored `mobile_number` is
left as it was. -/
def upsertOtp (db : DB) (uid : ℕ) (code : String) (expiry : ℕ) (m : String) (now : ℕ) : DB :=
  if db.otps.any (fun o => o.user_id == uid) then
    { db with otps := db.otps.map (fun o =>
        if o.user_id == uid then
          { o with otp := code, expiry_time := expiry, created_at := now }
        else o) }
  else
    { db with otps := db.otps ++
        [{ user_id := uid, mobile_number := m, otp := code, expiry_time := expiry,
           created_at := now }] }

/-- `DELETE FROM otps WHERE user_id = $1`. -/
def deleteOtps (db : DB) (uid : ℕ) : DB :=
  { db with otps := db.otps.filter (fun o => o.user_id != uid) }

/-! ## Controller: sendOtp / verifyOtp (src/src/controllers/profile.controller.js) -/

/-- `s.startsWith(pre)`, computed structurally on the character lists. -/
def strStartsWith (s pre : String) : Bool :=
  pre.data.isPrefixOf s.data

/-- `s.slice(n)` / dropping the first `n` characters, computed structurally. -/
def strDrop (s : String) (n : ℕ) : String :=
  String.mk (s.data.drop n)

/-- The regex test `/^\+?[1-9]\d{1,14}$/.test(mobileNumber)`: an optional
leading `+`, then a digit `1`–`9`, then 1 to 14 further digits. -/
def mobileRegexTest (s : String) : Bool :=
  let t := if strStartsWith s "+" then strDrop s 1 else s
  match t.data with
  | [] => false
  | c :: rest =>
    (('1' ≤ c) && (c ≤ '9')) && rest.all isDigitChar
      && ((1 ≤ rest.length) && (rest.length ≤ 14))

/-- `mobileNumber.startsWith('+') ? mobileNumber : ('+91' + mobileNumber)`. -/
def normalizeMobile (m : String) : String :=
  if strStartsWith m "+" then m else "+91" ++ m

/-- Outcomes of `POST /send-otp` (`sendOtp`). -/
inductive SendOtpResult where
  /-- 400 `'Mobile number is required'`. -/
  | missingNumber
  /-- 400 `'Invalid mobile number format'`. -/
  | invalidFormat
  /-- 200: normalized number, `isNewUser`, and (development mode only) the OTP. -/
  | ok (mobileNumber : String) (isNewUser : Bool) (devOtp : Option String)
  deriving Repr, DecidableEq

/-- `sendOtp`: validate, normalize, resolve-or-create the user, generate the
OTP (fixed `"123456"` in development mode, else the random `generateOTP`
value, passed here as `randCode`), and upsert the challenge row.  Returns the
HTTP outcome together with the post-state of the database. -/
def sendOtp (env : Env) (randCode : String) (now : ℕ) (db : DB)
    (mobileNumber : Option String) : SendOtpResult × DB :=
  if !(jsTruthy mobileNumber) then (.missingNumber, db)
  else
    let m := mobileNumber.getD ""
    if !(mobileRegexTest m) then (.invalidFormat, db)
    else
      let normalizedMobile := normalizeMobile m
      let found := findUserByMobile db normalizedMobile
      let isNewUser := found.isNone
      let userId := match found with
        | some u => u.id
        | none => db.nextUserId
      let db1 := match found with
        | some _ => db
        | none =>
          { db with
              users := db.users ++
                [{ id := db.nextUserId, mobile_number := normalizedMobile,
                   created_at := now }],
              nextUserId := db.nextUserId + 1 }
      let otp := if isDevelopment env then "123456" else randCode
      let expiryTime := getOTPExpiryTime now
      let db2 := upsertOtp db1 userId otp expiryTime normalizedMobile now
      (.ok normalizedMobile isNewUser (if isDevelopment env then some otp else none), db2)

/-- Outcomes of `POST /verify-otp` (`verifyOtp`). -/
inductive VerifyOtpResult where
  /-- 400 `'Mobile number and OTP are required'`. -/
  | missingFields
  /-- 400 `'Invalid OTP format. OTP must be 6 digits'`. -/
  | invalidOtpFormat
  /-- 404 `'User not found. Please request OTP first'`. -/
  | userNotFound
  /-- 400 `'OTP not found. Please request a new OTP'`. -/
  | otpNotFound
  /-- 400 `'OTP has expired. Please request a new OTP'`. -/
  | otpExpired
  /-- 400 `'Invalid OTP'`. -/
  | invalidOtp
  /-- 200: session token and the user's public fields. -/
  | ok (token : Token) (userId : ℕ) (mobileNumber : String) (createdAt : ℕ)
  deriving Repr, DecidableEq

/-- `verifyOtp`: validate inputs, resolve the user, then either take the
development-mode test-OTP shortcut or check the stored challenge (absent /
expired / mismatch reject early, leaving the database untouched); on success
mint a token and delete the user's OTP rows.  `windowMs` is the token
validity window (`JWT_EXPIRES_IN`, default 7 days). -/
def verifyOtp (env : Env) (windowMs now : ℕ) (db : DB)
    (mobileNumber otp : Option String) : VerifyOtpResult × DB :=
  if !(jsTruthy mobileNumber) || !(jsTruthy otp) then (.missingFields, db)
  else
    let o := otp.getD ""
    if !(isValidOTPFormat o) then (.invalidOtpFormat, db)
    else
      let normalizedMobile := normalizeMobile (mobileNumber.getD "")
      match findUserByMobile db normalizedMobile with
      | none => (.userNotFound, db)
      | some user =>
        -- the three early returns of the stored-challenge check, `none` when
        -- control falls through to the success path
        let earlyReject : Option VerifyOtpResult :=
          if isDevelopment env && (o == "123456") then none
          else
            match findOtp db user.id normalizedMobile with
            | none => some .otpNotFound
            | some row =>
              if isOTPExpired now row.expiry_time then some .otpExpired
              else if row.otp != o then some .invalidOtp
              else none
        match earlyReject with
        | some r => (r, db)
        | none =>
          let token := generateToken env windowMs
            { userId := user.id, mobileNumber := normalizedMobile } now
          (.ok token user.id normalizedMobile user.created_at,
           deleteOtps db user.id)

/-! ## Authentication middleware (src/unnamed/part_002) -/

/-- Outcome of the `authenticate` middleware. -/
inductive AuthOutcome where
  /-- `res.status(status).json({ error })` — the request is not forwarded. -/
  | reject (status : ℕ) (error : String)
  /-- `req.user = decoded; next()` — forwarded with the identity attached. -/
  | forward (user : TokenPayload)
  deriving Repr, DecidableEq

/-- Token extraction: `authHeader.startsWith('Bearer ') ? authHeader.slice(7) : authHeader`. -/
def extractToken (authHeader : String) : String :=
  if strStartsWith authHeader "Bearer " then strDrop authHeader 7 else authHeader

/-- `authenticate`: reject a missing header or empty token with 401 before any
verification; otherwise verify the extracted token (the verifier — in the
source, `verifyToken` over the encoded token string — is a parameter), attach
and forward on success, and 401 with the thrown message on failure
(`error.message || 'Invalid or expired token'`). -/
def authenticate (verify : String → Except String TokenPayload)
    (authHeader : Option String) : AuthOutcome :=
  if !(jsTruthy authHeader) then .reject 401 "Authorization header is required"
  else
    let h := authHeader.getD ""
    let token := extractToken h
    if token == "" then .reject 401 "Token is required"
    else
      match verify token with
      | .ok decoded => .forward decoded
      | .error msg => .reject 401 (if msg == "" then "Invalid or expired token" else msg)

/-! ## Spec-side definition (for comparison with `mobileRegexTest`) -/

/-- The accepted phone-number pattern stated from the specification's words
(as amended): an optional leading `+`, then digits only, between 2 and 15 of
them, the first of which is not `0`. -/
def specPhoneOk (s : String) : Bool :=
  let t := if strStartsWith s "+" then strDrop s 1 else s
  ((2 ≤ t.length) && (t.length ≤ 15)) && t.data.all isDigitChar
    && (t.data.head? != some '0')

/-! ## Concrete fixtures used by witnesses and counterexamples -/

/-- An environment with `AWS_LAMBDA_FUNCTION_NAME` unset (and `NODE_ENV` not
`development`): development mode is active. -/
def devEnv : Env := ⟨some "production", none, none⟩

/-- A deployed environment: `AWS_LAMBDA_FUNCTION_NAME` set, `NODE_ENV` unset. -/
def prodEnv : Env := ⟨none, some "funds-api", none⟩

/-- A registered user. -/
def aliceUser : UserRow := ⟨1, "+911234567890", 10⟩

/-- A standing challenge for `aliceUser`, code `"654321"`, expiring at 500. -/
def aliceOtpRow : OtpRow := ⟨1, "+911234567890", "654321", 500, 10⟩

/-- A standing challenge for `aliceUser` carrying the fixed test code. -/
def aliceTestOtpRow : OtpRow := ⟨1, "+911234567890", "123456", 500, 10⟩

/-- Database holding `aliceUser` and no challenge. -/
def dbAlice : DB := ⟨[aliceUser], [], 2⟩

/-- Database holding `aliceUser` and the `"654321"` challenge. -/
def dbAliceOtp : DB := ⟨[aliceUser], [aliceOtpRow], 2⟩

/-- Database holding `aliceUser` and the `"123456"` challenge. -/
def dbAliceTestOtp : DB := ⟨[aliceUser], [aliceTestOtpRow], 2⟩

/-! ## Helper lemmas -/

theorem isValidOTPFormat_ne_empty {o : String} (ho : isValidOTPFormat o = true) :
    o ≠ "" := by
  intro h
  subst h
  exact absurd ho (by decide)

theorem jsTruthy_some {s : String} (hs : s ≠ "") : jsTruthy (some s) = true := by
  simp [jsTruthy, hs]

theorem findOtp_deleteOtps (db : DB) (uid : ℕ) (m : String) :
    findOtp (deleteOtps db uid) uid m = none := by
  have h : (deleteOtps db uid).otps = db.otps.filter (fun o => o.user_id != uid) := rfl
  rw [findOtp, h, List.find?_eq_none]
  intro o ho
  have h2 := (List.mem_filter.mp ho).2
  simp only [bne_iff_ne, ne_eq] at h2
  simp [h2]

/-- Unfolded control flow of `verifyOtp` once both body fields are present
and the OTP has a valid format. -/
theorem verifyOtp_char (env : Env) (windowMs now : ℕ) (db : DB) (m o : String)
    (hm : m ≠ "") (ho : isValidOTPFormat o = true) :
    verifyOtp env windowMs now db (some m) (some o) =
      match findUserByMobile db (normalizeMobile m) with
      | none => (.userNotFound, db)
      | some user =>
        if isDevelopment env && (o == "123456") then
          (.ok (generateToken env windowMs ⟨user.id, normalizeMobile m⟩ now)
             user.id (normalizeMobile m) user.created_at, deleteOtps db user.id)
        else
          match findOtp db user.id (normalizeMobile m) with
          | none => (.otpNotFound, db)
          | some row =>
            if isOTPExpired now row.expiry_time then (.otpExpired, db)
            else if row.otp != o then (.invalidOtp, db)
            else (.ok (generateToken env windowMs ⟨user.id, normalizeMobile m⟩ now)
                    user.id (normalizeMobile m) user.created_at, deleteOtps db user.id) := by
  rw [verifyOtp, jsTruthy_some hm, jsTruthy_some (isValidOTPFormat_ne_empty ho)]
  simp only [Bool.not_true, Bool.or_self, Bool.false_eq_true, if_false, Option.getD_some, ho,
    Bool.not_false, Bool.true_eq_false, if_true]
  cases hfind : findUserByMobile db (normalizeMobile m) with
  | none => rfl
  | some user =>
    simp only []
    by_cases hdev : (isDevelopment env && (o == "123456")) = true
    · simp only [hdev, if_true]
    · rw [Bool.not_eq_true] at hdev
      simp only [hdev, Bool.false_eq_true, if_false]
      cases hotp : findOtp db user.id (normalizeMobile m) with
      | none => rfl
      | some row =>
        by_cases hexp : isOTPExpired now row.expiry_time = true
        · simp only [hexp, if_true]
        · rw [Bool.not_eq_true] at hexp
          simp only [hexp, Bool.false_eq_true, if_false]
          by_cases hne : (row.otp != o) = true
          · simp only [hne, if_true]
          · rw [Bool.not_eq_true] at hne
            simp only [hne, Bool.false_eq_true, if_false]

/-- `sendOtp` on a present but regex-rejected number. -/
theorem sendOtp_invalid (env : Env) (randCode : String) (now : ℕ) (db : DB) (m : String)
    (hm : m ≠ "") (hreg : mobileRegexTest m = false) :
    sendOtp env randCode now db (some m) = (.invalidFormat, db) := by
  rw [sendOtp, jsTruthy_some hm]
  simp only [Bool.not_true, Bool.false_eq_true, if_false, Option.getD_some, hreg,
    Bool.not_false, if_true]

/-- The HTTP outcome of `sendOtp` on a regex-accepted number. -/
theorem sendOtp_ok (env : Env) (randCode : String) (now : ℕ) (db : DB) (m : String)
    (hm : m ≠ "") (hreg : mobileRegexTest m = true) :
    (sendOtp env randCode now db (some m)).1
      = .ok (normalizeMobile m) (findUserByMobile db (normalizeMobile m)).isNone
          (if isDevelopment env then some "123456" else none) := by
  rw [sendOtp, jsTruthy_some hm]
  simp only [Bool.not_true, Bool.false_eq_true, if_false, Option.getD_some, hreg,
    Bool.not_true, Bool.true_eq_false, if_true]
  by_cases hdev : isDevelopment env = true
  · simp only [hdev, if_true]
  · rw [Bool.not_eq_true] at hdev
    simp only [hdev, Bool.false_eq_true, if_false]

/-- Full state transition of `sendOtp` when the user already exists. -/
theorem sendOtp_existing (env : Env) (randCode : String) (now : ℕ) (db : DB) (m : String)
    (hm : m ≠ "") (hreg : mobileRegexTest m = true) (u : UserRow)
    (hu : findUserByMobile db (normalizeMobile m) = some u) :
    sendOtp env randCode now db (some m)
      = (.ok (normalizeMobile m) false (if isDevelopment env then some "123456" else none),
         upsertOtp db u.id (if isDevelopment env then "123456" else randCode)
           (getOTPExpiryTime now) (normalizeMobile m) now) := by
  rw [sendOtp, jsTruthy_some hm]
  simp only [Bool.not_true, Bool.false_eq_true, if_false, Option.getD_some, hreg,
    Bool.true_eq_false, if_true, hu, Option.isNone_some]
  by_cases hdev : isDevelopment env = true
  · simp only [hdev, if_true]
  · rw [Bool.not_eq_true] at hdev
    simp only [hdev, Bool.false_eq_true, if_false]

theorem char_le_iff_toNat (a b : Char) : a ≤ b ↔ a.val.toNat ≤ b.val.toNat := by
  rw [Char.le_def, UInt32.le_def]
  exact BitVec.le_def

theorem char_eq_iff_toNat (a b : Char) : a = b ↔ a.val.toNat = b.val.toNat := by
  constructor
  · intro h; rw [h]
  · intro h
    exact Char.eq_of_val_eq (UInt32.eq_of_toBitVec_eq (BitVec.eq_of_toNat_eq h))

/-- On decimal digits, being in the class `[1-9]` is being distinct from `'0'`. -/
theorem digit_first_iff (c : Char) (hd : isDigitChar c = true) :
    ((('1' ≤ c) && (c ≤ '9')) = true) ↔ c ≠ '0' := by
  simp only [isDigitChar, Bool.and_eq_true, decide_eq_true_eq] at hd ⊢
  rw [char_le_iff_toNat, char_le_iff_toNat] at hd
  rw [char_le_iff_toNat, char_le_iff_toNat, Ne, char_eq_iff_toNat]
  have h0 : ('0' : Char).val.toNat = 48 := by decide
  have h1 : ('1' : Char).val.toNat = 49 := by decide
  have h9 : ('9' : Char).val.toNat = 57 := by decide
  rw [h0] at hd ⊢
  rw [h1, h9]
  rw [h9] at hd
  omega

/-- The source's regex test agrees with the (amended) spec-side pattern. -/
theorem mobileRegexTest_iff_specPhoneOk (s : String) :
    mobileRegexTest s = true ↔ specPhoneOk s = true := by
  rw [mobileRegexTest, specPhoneOk]
  have hlen : ∀ t : String, t.length = t.data.length := fun _ => rfl
  set t := if strStartsWith s "+" then strDrop s 1 else s with ht
  rw [hlen t]
  cases hdata : t.data with
  | nil => simp
  | cons c rest =>
    simp only [Bool.and_eq_true, List.all_cons, List.length_cons, decide_eq_true_eq,
      List.head?_cons, bne_iff_ne, ne_eq, Option.some.injEq]
    constructor
    · rintro ⟨⟨h19, hall⟩, hlen1, hlen14⟩
      have h19' : ((('1' ≤ c) && (c ≤ '9')) = true) := by
        simp only [Bool.and_eq_true, decide_eq_true_eq]
        exact h19
      have hd : isDigitChar c = true := by
        simp only [isDigitChar, Bool.and_eq_true, decide_eq_true_eq]
        exact ⟨le_trans (by decide) h19.1, h19.2⟩
      refine ⟨⟨⟨by omega, by omega⟩, hd, hall⟩, ?_⟩
      exact (digit_first_iff c hd).mp h19'
    · rintro ⟨⟨⟨hl2, hl15⟩, hd, hall⟩, hne⟩
      have h19 := (digit_first_iff c hd).mpr hne
      simp only [Bool.and_eq_true, decide_eq_true_eq] at h19
      exact ⟨⟨h19, hall⟩, by omega, by omega⟩

end FundsProjector

namespace FundsProjector

/-- C7: the Access Gate rejects a missing `Authorization` header or an empty
extracted token with 401 before calling the verifier; a `Bearer `-prefixed
header has its remainder taken as the token, any other header value is used
whole; on successful verification the decoded identity is attached and the
request forwarded; on verification failure it is rejected with the
classified message and never forwarded. -/
theorem c7_access_gate (verify : String → Except String TokenPayload) :
    authenticate verify none = .reject 401 "Authorization header is required"
    ∧ authenticate verify (some "") = .reject 401 "Authorization header is required"
    ∧ (∀ h : String, h ≠ "" → extractToken h = "" →
        authenticate verify (some h) = .reject 401 "Token is required")
    ∧ (∀ h : String, strStartsWith h "Bearer " = true → extractToken h = strDrop h 7)
    ∧ (∀ h : String, strStartsWith h "Bearer " = false → extractToken h = h)
    ∧ (∀ (h : String) (p : TokenPayload), h ≠ "" → extractToken h ≠ "" →
        verify (extractToken h) = .ok p →
        authenticate verify (some h) = .forward p)
    ∧ (∀ (h : String) (msg : String), h ≠ "" → extractToken h ≠ "" →
        verify (extractToken h) = .error msg → msg ≠ "" →
        authenticate verify (some h) = .reject 401 msg) := by
  refine ⟨rfl, rfl, ?_, ?_, ?_, ?_, ?_⟩
  · intro h hne hext
    rw [authenticate, jsTruthy_some hne]
    simp only [Bool.not_true, Bool.false_eq_true, if_false, Option.getD_some, hext,
      beq_self_eq_true, if_true]
  · intro h hb
    simp only [extractToken, hb, if_true]
  · intro h hb
    simp only [extractToken, hb, Bool.false_eq_true, if_false]
  · intro h p hne hext hv
    rw [authenticate, jsTruthy_some hne]
    have hbeq : (extractToken h == "") = false := by simp [hext]
    simp only [Bool.not_true, Bool.false_eq_true, if_false, Option.getD_some, hbeq, hv]
  · intro h msg hne hext hv hmsg
    rw [authenticate, jsTruthy_some hne]
    have hbeq : (extractToken h == "") = false := by simp [hext]
    have hbeq2 : (msg == "") = false := by simp [hmsg]
    simp only [Bool.not_true, Bool.false_eq_true, if_false, Option.getD_some, hbeq, hv,
      hbeq2]

theorem c7_access_gate_witness :
    authenticate (fun t => if t == "sess" then .ok ⟨1, "+911234567890"⟩
        else .error "Invalid token") (some "Bearer sess")
      = .forward ⟨1, "+911234567890"⟩
    ∧ authenticate (fun t => if t == "sess" then .ok ⟨1, "+911234567890"⟩
        else .error "Invalid token") none
      = .reject 401 "Authorization header is required"
    ∧ authenticate (fun t => if t == "sess" then .ok ⟨1, "+911234567890"⟩
        else .error "Invalid token") (some "Bearer bad")
      = .reject 401 "Invalid token" := by
  refine ⟨?_, ?_, ?_⟩
  · exact (c7_access_gate _).2.2.2.2.2.1 "Bearer sess" ⟨1, "+911234567890"⟩
      (by decide) (by decide) rfl
  · exact (c7_access_gate _).1
  · exact (c7_access_gate _).2.2.2.2.2.2 "Bearer bad" "Invalid token"
      (by decide) (by decide) rfl (by decide)

/-- C8: the token round trip — `verify(issue(p))` yields `p` at any time
strictly before the expiry window elapses, fails with the expired-token
error once it has elapsed, and a token signed under a different secret fails
with the invalid-token error, distinguishable from the expired one; the
default window is 7 days. -/
theorem c8_token_round_trip (env : Env) (windowMs issueTime checkTime : ℕ)
    (p : TokenPayload) :
    (checkTime < issueTime + windowMs →
      verifyToken env checkTime (generateToken env windowMs p issueTime) = .ok p)
    ∧ (issueTime + windowMs ≤ checkTime →
      verifyToken env checkTime (generateToken env windowMs p issueTime)
        = .error "Token has expired")
    ∧ (∀ t : Token, t.secret ≠ jwtSecret env →
      verifyToken env checkTime t = .error "Invalid token")
    ∧ "Token has expired" ≠ "Invalid token"
    ∧ JWT_DEFAULT_WINDOW_MS = 7 * 24 * 60 * 60 * 1000 := by
  refine ⟨?_, ?_, ?_, by decide, rfl⟩
  · intro hlt
    rw [verifyToken, jwtVerify]
    rw [if_neg (by simp [generateToken, jwtSign])]
    rw [if_neg (by simp only [generateToken, jwtSign]; omega)]
    rfl
  · intro hle
    rw [verifyToken, jwtVerify]
    rw [if_neg (by simp [generateToken, jwtSign])]
    rw [if_pos (by simp only [generateToken, jwtSign]; omega)]
  · intro t ht
    rw [verifyToken, jwtVerify, if_pos ht]

theorem c8_token_round_trip_witness :
    verifyToken prodEnv 500 (generateToken prodEnv 1000 ⟨1, "+911234567890"⟩ 0)
      = .ok ⟨1, "+911234567890"⟩
    ∧ verifyToken prodEnv 1000 (generateToken prodEnv 1000 ⟨1, "+911234567890"⟩ 0)
      = .error "Token has expired"
    ∧ verifyToken prodEnv 500 ⟨⟨1, "+911234567890"⟩, 0, 1000, "other-secret"⟩
      = .error "Invalid token" :=
  ⟨(c8_token_round_trip prodEnv 1000 0 500 ⟨1, "+911234567890"⟩).1 (by decide),
   (c8_token_round_trip prodEnv 1000 0 1000 ⟨1, "+911234567890"⟩).2.1 (by decide),
   (c8_token_round_trip prodEnv 1000 0 500 ⟨1, "+911234567890"⟩).2.2.1
     ⟨⟨1, "+911234567890"⟩, 0, 1000, "other-secret"⟩ (by decide)⟩

/-- C9: for every random draw `r ∈ [0,1)`, the generated challenge code
`floor(100000 + r * 900000)` lies in `[100000, 999999]` and so renders as
exactly 6 decimal digits. -/
theorem c9_generateOTP_six_digits (r : ℚ) (h0 : 0 ≤ r) (h1 : r < 1) :
    100000 ≤ generateOTP r ∧ generateOTP r ≤ 999999
      ∧ (Nat.digits 10 (generateOTP r)).length = 6 := by
  have hlow : (100000 : ℚ) ≤ 100000 + r * 900000 := by nlinarith
  have hhigh : (100000 : ℚ) + r * 900000 < 1000000 := by nlinarith
  have hfl_low : (100000 : ℤ) ≤ ⌊(100000 : ℚ) + r * 900000⌋ := by
    apply Int.le_floor.mpr
    exact_mod_cast hlow
  have hfl_high : ⌊(100000 : ℚ) + r * 900000⌋ < 1000000 := by
    apply Int.floor_lt.mpr
    exact_mod_cast hhigh
  have hn_low : 100000 ≤ generateOTP r := by
    rw [generateOTP]; omega
  have hn_high : generateOTP r ≤ 999999 := by
    rw [generateOTP]; omega
  refine ⟨hn_low, hn_high, ?_⟩
  rw [Nat.digits_len 10 (generateOTP r) (by norm_num) (by omega)]
  have hlog : Nat.log 10 (generateOTP r) = 5 := by
    apply Nat.log_eq_of_pow_le_of_lt_pow
    · norm_num; omega
    · norm_num; omega
  omega

theorem c9_generateOTP_six_digits_witness :
    (0 : ℚ) ≤ 1/2 ∧ (1/2 : ℚ) < 1
      ∧ (Nat.digits 10 (generateOTP (1/2))).length = 6 :=
  ⟨by norm_num, by norm_num,
   (c9_generateOTP_six_digits (1/2) (by norm_num) (by norm_num)).2.2⟩

/-- C10: with `JWT_SECRET` unset, both issuance and verification silently use
the hardcoded fallback secret, so issuance succeeds and the minted token
verifies (before expiry) under that fallback. -/
theorem c10_jwt_secret_fallback (env : Env) (hs : env.jwtSecretVar = none)
    (windowMs issueTime checkTime : ℕ) (p : TokenPayload) :
    jwtSecret env = "your-secret-key-change-in-production"
    ∧ (generateToken env windowMs p issueTime).secret
        = "your-secret-key-change-in-production"
    ∧ (checkTime < issueTime + windowMs →
        verifyToken env checkTime (generateToken env windowMs p issueTime) = .ok p) := by
  have h : jwtSecret env = "your-secret-key-change-in-production" := by
    rw [jwtSecret, hs]; rfl
  refine ⟨h, h, ?_⟩
  intro hlt
  rw [verifyToken, jwtVerify]
  rw [if_neg (by simp [generateToken, jwtSign])]
  rw [if_neg (by simp only [generateToken, jwtSign]; omega)]
  rfl

theorem c10_jwt_secret_fallback_witness :
    jwtSecret prodEnv = "your-secret-key-change-in-production"
    ∧ verifyToken prodEnv 500 (generateToken prodEnv 1000 ⟨1, "+911234567890"⟩ 0)
      = .ok ⟨1, "+911234567890"⟩ :=
  ⟨(c10_jwt_secret_fallback prodEnv rfl 1000 0 500 ⟨1, "+911234567890"⟩).1,
   (c10_jwt_secret_fallback prodEnv rfl 1000 0 500 ⟨1, "+911234567890"⟩).2.2 (by decide)⟩

/-- C1: with `AWS_LAMBDA_FUNCTION_NAME` unset, development mode is active
regardless of `NODE_ENV`; then for any user present in the identity store,
`verifyOtp` with code `"123456"` succeeds and mints a session token even
when no challenge row exists, an unknown number still fails with the
user-not-found error, and `sendOtp` stores the fixed code `"123456"` and
returns it in the response body. -/
theorem c1_dev_mode_unset_lambda (env : Env) (hA : env.awsLambdaFunctionName = none)
    (windowMs now : ℕ) (db : DB) (m : String) (hm : m ≠ "")
    (user : UserRow) (hu : findUserByMobile db (normalizeMobile m) = some user)
    (hreg : mobileRegexTest m = true) (randCode : String) :
    isDevelopment env = true
    ∧ verifyOtp env windowMs now db (some m) (some "123456")
        = (.ok (generateToken env windowMs ⟨user.id, normalizeMobile m⟩ now)
            user.id (normalizeMobile m) user.created_at, deleteOtps db user.id)
    ∧ (∀ db2 : DB, findUserByMobile db2 (normalizeMobile m) = none →
        verifyOtp env windowMs now db2 (some m) (some "123456") = (.userNotFound, db2))
    ∧ sendOtp env randCode now db (some m)
        = (.ok (normalizeMobile m) false (some "123456"),
           upsertOtp db user.id "123456" (getOTPExpiryTime now) (normalizeMobile m) now) := by
  have hdev : isDevelopment env = true := by
    rw [isDevelopment, hA]
    simp [jsTruthy]
  refine ⟨hdev, ?_, ?_, ?_⟩
  · rw [verifyOtp_char env windowMs now db m "123456" hm (by decide), hu]
    simp only [hdev, beq_self_eq_true, Bool.and_self, if_true]
  · intro db2 h2
    rw [verifyOtp_char env windowMs now db2 m "123456" hm (by decide), h2]
  · rw [sendOtp_existing env randCode now db m hm hreg user hu]
    simp only [hdev, if_true]

theorem c1_dev_mode_unset_lambda_witness :
    isDevelopment devEnv = true
    ∧ verifyOtp devEnv 1000 50 dbAlice (some "+911234567890") (some "123456")
        = (.ok (generateToken devEnv 1000 ⟨aliceUser.id, normalizeMobile "+911234567890"⟩ 50)
            aliceUser.id (normalizeMobile "+911234567890") aliceUser.created_at,
           deleteOtps dbAlice aliceUser.id)
    ∧ sendOtp devEnv "999999" 50 dbAlice (some "+911234567890")
        = (.ok (normalizeMobile "+911234567890") false (some "123456"),
           upsertOtp dbAlice aliceUser.id "123456" (getOTPExpiryTime 50)
             (normalizeMobile "+911234567890") 50) := by
  have h := c1_dev_mode_unset_lambda devEnv rfl 1000 50 dbAlice "+911234567890"
    (by decide) aliceUser (by decide) (by decide) "999999"
  exact ⟨h.1, h.2.1, h.2.2.2⟩

/-- C2 counterexample: a development-mode test-code verification with a
standing challenge row present deletes that row — the stored challenge state
is modified, contradicting the claim that it is neither read nor modified. -/
theorem c2_counterexample :
    (verifyOtp devEnv 1000 50 dbAliceOtp (some "+911234567890") (some "123456")).1
      = .ok (generateToken devEnv 1000 ⟨1, "+911234567890"⟩ 50) 1 "+911234567890" 10
    ∧ (verifyOtp devEnv 1000 50 dbAliceOtp (some "+911234567890") (some "123456")).2.otps = []
    ∧ dbAliceOtp.otps = [aliceOtpRow] :=
  ⟨by decide, by decide, rfl⟩

/-- C2 amended: a development-mode test-code verification never reads the
stored challenge — its HTTP outcome is the same for every content of the
`otps` table — but on success the unconditional post-verification delete
removes the user's stored challenge rows. -/
theorem c2_dev_shortcut_no_read (env : Env) (hdev : isDevelopment env = true)
    (windowMs now : ℕ) (db : DB) (m : String) (hm : m ≠ "")
    (user : UserRow) (hu : findUserByMobile db (normalizeMobile m) = some user) :
    (∀ otps1 otps2 : List OtpRow,
      (verifyOtp env windowMs now { db with otps := otps1 } (some m) (some "123456")).1
        = (verifyOtp env windowMs now { db with otps := otps2 } (some m) (some "123456")).1)
    ∧ (verifyOtp env windowMs now db (some m) (some "123456")).2
        = deleteOtps db user.id := by
  have key : ∀ ot : List OtpRow,
      verifyOtp env windowMs now { db with otps := ot } (some m) (some "123456")
        = (.ok (generateToken env windowMs ⟨user.id, normalizeMobile m⟩ now)
            user.id (normalizeMobile m) user.created_at,
           deleteOtps { db with otps := ot } user.id) := by
    intro ot
    have hu2 : findUserByMobile { db with otps := ot } (normalizeMobile m) = some user := hu
    rw [verifyOtp_char env windowMs now { db with otps := ot } m "123456" hm (by decide), hu2]
    simp only [hdev, beq_self_eq_true, Bool.and_self, if_true]
  constructor
  · intro otps1 otps2
    rw [key otps1, key otps2]
  · exact congrArg Prod.snd (key db.otps)

theorem c2_dev_shortcut_no_read_witness :
    ((verifyOtp devEnv 1000 50 { dbAliceOtp with otps := [aliceOtpRow] }
        (some "+911234567890") (some "123456")).1
      = (verifyOtp devEnv 1000 50 { dbAliceOtp with otps := [] }
          (some "+911234567890") (some "123456")).1)
    ∧ (verifyOtp devEnv 1000 50 dbAliceOtp (some "+911234567890") (some "123456")).2
        = deleteOtps dbAliceOtp aliceUser.id := by
  have h := c2_dev_shortcut_no_read devEnv (by decide) 1000 50 dbAliceOtp "+911234567890"
    (by decide) aliceUser (by decide)
  exact ⟨h.1 [aliceOtpRow] [], h.2⟩

/-- C3: when the stored-challenge check is reached, each of the three failure
outcomes — row absent, row expired, code mismatch — rejects with its
corresponding error kind and returns the database unchanged: no failed
verification deletes or modifies the standing challenge. -/
theorem c3_failed_verify_preserves_challenge (env : Env) (windowMs now : ℕ) (db : DB)
    (m o : String) (hm : m ≠ "") (ho : isValidOTPFormat o = true)
    (user : UserRow) (hu : findUserByMobile db (normalizeMobile m) = some user)
    (hnb : (isDevelopment env && (o == "123456")) = false) :
    (findOtp db user.id (normalizeMobile m) = none →
      verifyOtp env windowMs now db (some m) (some o) = (.otpNotFound, db))
    ∧ (∀ row : OtpRow, findOtp db user.id (normalizeMobile m) = some row →
        (isOTPExpired now row.expiry_time = true →
          verifyOtp env windowMs now db (some m) (some o) = (.otpExpired, db))
        ∧ (isOTPExpired now row.expiry_time = false → row.otp ≠ o →
          verifyOtp env windowMs now db (some m) (some o) = (.invalidOtp, db))) := by
  have key := verifyOtp_char env windowMs now db m o hm ho
  constructor
  · intro hno
    rw [key, hu]
    simp only [hnb, Bool.false_eq_true, if_false, hno]
  · intro row hrow
    constructor
    · intro hexp
      rw [key, hu]
      simp only [hnb, Bool.false_eq_true, if_false, hrow, hexp, if_true]
    · intro hexp hneq
      have hbne : (row.otp != o) = true := by simp [hneq]
      rw [key, hu]
      simp only [hnb, Bool.false_eq_true, if_false, hrow, hexp, hbne, if_true]

theorem c3_failed_verify_preserves_challenge_witness :
    verifyOtp prodEnv 1000 50 dbAlice (some "+911234567890") (some "654321")
      = (.otpNotFound, dbAlice)
    ∧ verifyOtp prodEnv 1000 501 dbAliceOtp (some "+911234567890") (some "654321")
      = (.otpExpired, dbAliceOtp)
    ∧ verifyOtp prodEnv 1000 50 dbAliceOtp (some "+911234567890") (some "111111")
      = (.invalidOtp, dbAliceOtp) := by
  refine ⟨?_, ?_, ?_⟩
  · exact (c3_failed_verify_preserves_challenge prodEnv 1000 50 dbAlice "+911234567890"
      "654321" (by decide) (by decide) aliceUser (by decide) (by decide)).1 (by decide)
  · exact ((c3_failed_verify_preserves_challenge prodEnv 1000 501 dbAliceOtp "+911234567890"
      "654321" (by decide) (by decide) aliceUser (by decide) (by decide)).2
        aliceOtpRow (by decide)).1 (by decide)
  · exact ((c3_failed_verify_preserves_challenge prodEnv 1000 50 dbAliceOtp "+911234567890"
      "111111" (by decide) (by decide) aliceUser (by decide) (by decide)).2
        aliceOtpRow (by decide)).2 (by decide) (by decide)

/-- C4 counterexample: at the exact expiry instant (now = expiry = 500) the
stored challenge is NOT treated as expired — `isOTPExpired` is strict — and a
verification with the correct code at that instant succeeds instead of
failing with the expired error, contradicting the claim. -/
theorem c4_counterexample :
    isOTPExpired 500 aliceOtpRow.expiry_time = false
    ∧ (verifyOtp prodEnv 1000 500 dbAliceOtp (some "+911234567890") (some "654321")).1
        = .ok (generateToken prodEnv 1000 ⟨1, "+911234567890"⟩ 500) 1 "+911234567890" 10 :=
  ⟨by decide, by decide⟩

/-- C4 amended: a stored challenge is rejected as expired exactly when the
current time is STRICTLY after the stored expiry timestamp; at or before the
expiry instant the challenge is still valid and the verification never
returns the expired error. -/
theorem c4_expiry_is_strict (env : Env) (windowMs now : ℕ) (db : DB)
    (m o : String) (hm : m ≠ "") (ho : isValidOTPFormat o = true)
    (user : UserRow) (hu : findUserByMobile db (normalizeMobile m) = some user)
    (hnb : (isDevelopment env && (o == "123456")) = false)
    (row : OtpRow) (hrow : findOtp db user.id (normalizeMobile m) = some row) :
    (isOTPExpired now row.expiry_time = true ↔ row.expiry_time < now)
    ∧ (row.expiry_time < now →
        verifyOtp env windowMs now db (some m) (some o) = (.otpExpired, db))
    ∧ (now ≤ row.expiry_time →
        (verifyOtp env windowMs now db (some m) (some o)).1 ≠ .otpExpired) := by
  have key := verifyOtp_char env windowMs now db m o hm ho
  refine ⟨by simp [isOTPExpired], ?_, ?_⟩
  · intro hlt
    rw [key, hu]
    have hexp : isOTPExpired now row.expiry_time = true := by
      simp [isOTPExpired, hlt]
    simp only [hnb, Bool.false_eq_true, if_false, hrow, hexp, if_true]
  · intro hle
    rw [key, hu]
    have hexp : isOTPExpired now row.expiry_time = false := by
      simp [isOTPExpired]; omega
    simp only [hnb, Bool.false_eq_true, if_false, hrow, hexp]
    by_cases hbne : (row.otp != o) = true
    · simp only [hbne, if_true]
      intro hcontra
      exact absurd hcontra (by simp)
    · rw [Bool.not_eq_true] at hbne
      simp only [hbne, Bool.false_eq_true, if_false]
      intro hcontra
      exact absurd hcontra (by simp)

theorem c4_expiry_is_strict_witness :
    verifyOtp prodEnv 1000 501 dbAliceOtp (some "+911234567890") (some "654321")
      = (.otpExpired, dbAliceOtp)
    ∧ (verifyOtp prodEnv 1000 500 dbAliceOtp (some "+911234567890") (some "654321")).1
        ≠ .otpExpired := by
  constructor
  · exact (c4_expiry_is_strict prodEnv 1000 501 dbAliceOtp "+911234567890" "654321"
      (by decide) (by decide) aliceUser (by decide) (by decide) aliceOtpRow (by decide)).2.1
      (by decide)
  · exact (c4_expiry_is_strict prodEnv 1000 500 dbAliceOtp "+911234567890" "654321"
      (by decide) (by decide) aliceUser (by decide) (by decide) aliceOtpRow (by decide)).2.2
      (by decide)

/-- C5 counterexample: in development mode with the stored (and previously
correct) code `"123456"`, the first verification succeeds and deletes the
row, yet the repeated verification with the same code succeeds again via the
test-code shortcut instead of failing with the not-found error — refuting
the claim's universal single-use statement. -/
theorem c5_counterexample :
    (verifyOtp devEnv 1000 50 dbAliceTestOtp (some "+911234567890") (some "123456")).1
      = .ok (generateToken devEnv 1000 ⟨1, "+911234567890"⟩ 50) 1 "+911234567890" 10
    ∧ (verifyOtp devEnv 1000 50 dbAliceTestOtp (some "+911234567890") (some "123456")).2
        = dbAlice
    ∧ (verifyOtp devEnv 1000 60 dbAlice (some "+911234567890") (some "123456")).1
      = .ok (generateToken devEnv 1000 ⟨1, "+911234567890"⟩ 60) 1 "+911234567890" 10 :=
  ⟨by decide, by decide, by decide⟩

/-- C5 amended: whenever the development-mode test-code shortcut does not
apply, a successful verification deletes the user's stored challenge rows
and a repeated verification with the same code afterwards fails with the
challenge-not-found error — no code verifies against the store twice. -/
theorem c5_single_use (env : Env) (windowMs now now2 : ℕ) (db : DB) (m o : String)
    (hm : m ≠ "") (ho : isValidOTPFormat o = true)
    (user : UserRow) (hu : findUserByMobile db (normalizeMobile m) = some user)
    (hnb : (isDevelopment env && (o == "123456")) = false)
    (row : OtpRow) (hrow : findOtp db user.id (normalizeMobile m) = some row)
    (hexp : isOTPExpired now row.expiry_time = false) (hmatch : row.otp = o) :
    verifyOtp env windowMs now db (some m) (some o)
      = (.ok (generateToken env windowMs ⟨user.id, normalizeMobile m⟩ now)
          user.id (normalizeMobile m) user.created_at, deleteOtps db user.id)
    ∧ verifyOtp env windowMs now2 (deleteOtps db user.id) (some m) (some o)
      = (.otpNotFound, deleteOtps db user.id) := by
  constructor
  · have hbne : (row.otp != o) = false := by simp [hmatch]
    rw [verifyOtp_char env windowMs now db m o hm ho, hu]
    simp only [hnb, Bool.false_eq_true, if_false, hrow, hexp, hbne]
  · have hu2 : findUserByMobile (deleteOtps db user.id) (normalizeMobile m) = some user := hu
    rw [verifyOtp_char env windowMs now2 (deleteOtps db user.id) m o hm ho, hu2]
    simp only [hnb, Bool.false_eq_true, if_false, findOtp_deleteOtps]

theorem c5_single_use_witness :
    verifyOtp prodEnv 1000 50 dbAliceOtp (some "+911234567890") (some "654321")
      = (.ok (generateToken prodEnv 1000 ⟨aliceUser.id, normalizeMobile "+911234567890"⟩ 50)
          aliceUser.id (normalizeMobile "+911234567890") aliceUser.created_at,
         deleteOtps dbAliceOtp aliceUser.id)
    ∧ verifyOtp prodEnv 1000 60 (deleteOtps dbAliceOtp aliceUser.id)
        (some "+911234567890") (some "654321")
      = (.otpNotFound, deleteOtps dbAliceOtp aliceUser.id) :=
  c5_single_use prodEnv 1000 50 60 dbAliceOtp "+911234567890" "654321"
    (by decide) (by decide) aliceUser (by decide) (by decide) aliceOtpRow
    (by decide) (by decide) (by decide)

/-- C6 counterexample: `"02"` is all digits of length 2, yet the regex
rejects it (its first digit must be 1–9) and issuance fails format
validation — contradicting the claim that every all-digit input of length
2–15 passes. -/
theorem c6_counterexample :
    ("02".data.all isDigitChar = true ∧ "02".length = 2)
    ∧ mobileRegexTest "02" = false
    ∧ sendOtp prodEnv "999999" 0 dbAlice (some "02") = (.invalidFormat, dbAlice) :=
  ⟨⟨by decide, by decide⟩, by decide, by decide⟩

/-- C6 amended: issuance accepts a mobile number exactly when it matches the
pattern — optional leading `+`, then 2 to 15 digits the first of which is
not `0` — and otherwise fails with the format-validation error. -/
theorem c6_mobile_format (env : Env) (randCode : String) (now : ℕ) (db : DB)
    (s : String) (hs : s ≠ "") :
    (mobileRegexTest s = true ↔ specPhoneOk s = true)
    ∧ ((sendOtp env randCode now db (some s)).1 = .invalidFormat
        ↔ specPhoneOk s = false) := by
  refine ⟨mobileRegexTest_iff_specPhoneOk s, ?_⟩
  by_cases hreg : mobileRegexTest s = true
  · have hspec := (mobileRegexTest_iff_specPhoneOk s).mp hreg
    rw [sendOtp_ok env randCode now db s hs hreg]
    simp [hspec]
  · have hreg2 : mobileRegexTest s = false := by rwa [Bool.not_eq_true] at hreg
    have hspec : specPhoneOk s = false := by
      cases hsp : specPhoneOk s with
      | false => rfl
      | true =>
        have hmr := (mobileRegexTest_iff_specPhoneOk s).mpr hsp
        rw [hreg2] at hmr
        exact hmr.symm
    rw [sendOtp_invalid env randCode now db s hs hreg2]
    simp [hspec]

theorem c6_mobile_format_witness :
    (mobileRegexTest "+919876543210" = true ↔ specPhoneOk "+919876543210" = true)
    ∧ ((sendOtp prodEnv "999999" 0 dbAlice (some "+919876543210")).1 = .invalidFormat
        ↔ specPhoneOk "+919876543210" = false) :=
  c6_mobile_format prodEnv "999999" 0 dbAlice "+919876543210" (by decide)

end FundsProjector
